import Mathlib

/-!
Shallow embedding of the LandMapMagic Flask example
(`src/vanilla-js/examples/flask-example.py`).

The file embeds, directly from the source:
  * the `FARMS` in-memory data (two farm records with nested fields),
  * the two farm-resolving routes `farm_detail` and `api_farm`
    (lookup via `FARMS.get`, 404 on a missing farm),
  * the map configuration passed to `LandMapMagic.createMap`
    (available layers, initial visible layers, initial center/zoom),
  * the `resetView` control, which only re-centers the camera
    (`map.flyTo` with the farm center and zoom 12) and issues no
    layer operation.

The layer-visibility semantics of the widget (`showLayer`,
`getVisibleLayers`, hide/reset of layers) live in
`landmap-vanilla-latest.js`, which is not part of the sources here;
those operations are modelled from the spec and marked as such in
their doc comments.
-/

namespace LandMap

/-- A field record, as in the nested `fields` entries of `FARMS`. -/
structure Field where
  id : String
  name : String
  acres : Nat
  crop : String
deriving DecidableEq, Repr

/-- A farm record, as in the entries of the `FARMS` dictionary.
The geographic center is a (longitude, latitude) pair of rationals. -/
structure Farm where
  id : String
  name : String
  owner : String
  acres : Nat
  county : String
  state : String
  center : ℚ × ℚ
  fields : List Field
deriving DecidableEq, Repr

/-- The farm with key `'1'` in `FARMS`. -/
def farm1 : Farm :=
  { id := "1"
    name := "Johnson Family Farm"
    owner := "Robert Johnson"
    acres := 1200
    county := "Story"
    state := "Iowa"
    center := (-93.5, 42.0)
    fields :=
      [ { id := "f1", name := "North Field", acres := 400, crop := "Corn" }
      , { id := "f2", name := "South Field", acres := 350, crop := "Soybeans" }
      , { id := "f3", name := "East Field", acres := 450, crop := "Corn" } ] }

/-- The farm with key `'2'` in `FARMS`. -/
def farm2 : Farm :=
  { id := "2"
    name := "Prairie View Farms"
    owner := "Sarah Miller"
    acres := 800
    county := "Hamilton"
    state := "Nebraska"
    center := (-98.1, 41.2)
    fields :=
      [ { id := "f4", name := "West Section", acres := 400, crop := "Wheat" }
      , { id := "f5", name := "East Section", acres := 400, crop := "Corn" } ] }

/-- The `FARMS` dictionary, as an insertion-ordered association list.
`FARMS.lookup` plays the role of Python's `FARMS.get`. -/
def FARMS : List (String × Farm) := [("1", farm1), ("2", farm2)]

/-- The farms in listing order (`FARMS.values()`). -/
def farmsList : List Farm := FARMS.map Prod.snd

/-- Body of the HTML detail route: either the literal not-found text
or the rendered detail page for a farm (the markup itself is
presentation glue and out of scope; we record which farm it renders). -/
inductive DetailBody where
  | notFoundText
  | page (f : Farm)
deriving DecidableEq, Repr

/-- `farm_detail(farm_id)`: looks the farm up with `FARMS.get`; on a
missing farm returns the body `"Farm not found"` with status 404,
otherwise renders the detail page with status 200.  (Python's
`if not farm` is a None check here: every `FARMS` value is a
non-empty record, so falsiness coincides with absence.) -/
def farm_detail (farm_id : String) : DetailBody × Nat :=
  match FARMS.lookup farm_id with
  | none => (.notFoundText, 404)
  | some f => (.page f, 200)

/-- Body of the JSON API route: either the error object
`{error: "Farm not found"}` or the farm record serialized as JSON. -/
inductive ApiBody where
  | errorObj (msg : String)
  | farmJson (f : Farm)
deriving DecidableEq, Repr

/-- `api_farm(farm_id)`: looks the farm up with `FARMS.get`; on a
missing farm returns `jsonify({'error': 'Farm not found'})` with
status 404, otherwise the farm as JSON with status 200. -/
def api_farm (farm_id : String) : ApiBody × Nat :=
  match FARMS.lookup farm_id with
  | none => (.errorObj "Farm not found", 404)
  | some f => (.farmJson f, 200)

/-- The two error kinds of the core: a missing farm identifier and a
layer identifier outside the catalog. -/
inductive CoreError where
  | notFoundError
  | invalidLayerError
deriving DecidableEq, Repr

/-- Modelled from the spec: `FarmRepository.get(farmId)` fails with
NotFoundError if `farmId` is absent; the source expresses the same
lookup as `FARMS.get(farm_id)` followed by a None check. -/
def FarmRepository_get (farmId : String) : Except CoreError Farm :=
  match FARMS.lookup farmId with
  | none => .error .notFoundError
  | some f => .ok f

/-- The `availableLayers` list of the `LandMapMagic.createMap` config:
the LayerCatalog of known layer identifiers. -/
def availableLayers : List String := ["ssurgo", "cdl", "plss", "clu"]

/-- The `initialVisibleLayers` list of the `createMap` config. -/
def initialVisibleLayers : List String := ["ssurgo"]

/-- Membership in the LayerCatalog (`isKnown` of the spec). -/
def isKnown (id : String) : Bool := decide (id ∈ availableLayers)

/-- The layer-visibility state of one map session: the currently
visible layers together with the initial subset the session was
created with (used by `reset`). -/
structure LayerVisibilityState where
  visible : List String
  initialSubset : List String
deriving DecidableEq, Repr

/-- Read-only snapshot of the visible layers (`currentlyVisible`). -/
def LayerVisibilityState.currentlyVisible (s : LayerVisibilityState) : List String :=
  s.visible

/-- Modelled from the spec: the widget's `showLayer` in its additive
`show(id)` reading — idempotent, adds `id` to the visible set, fails
with InvalidLayerError if `id` is not in the LayerCatalog.  The widget
implementation is not among the sources. -/
def LayerVisibilityState.showLayer (s : LayerVisibilityState) (id : String) :
    Except CoreError LayerVisibilityState :=
  if isKnown id then
    .ok { s with visible := if id ∈ s.visible then s.visible else s.visible ++ [id] }
  else
    .error .invalidLayerError

/-- Modelled from the spec: `hide(id)` — idempotent, removes `id` if
present, no error if already absent.  The widget implementation is not
among the sources. -/
def LayerVisibilityState.hideLayer (s : LayerVisibilityState) (id : String) :
    LayerVisibilityState :=
  { s with visible := s.visible.erase id }

/-- Modelled from the spec: `toggleExclusive(id)` — sets the visible
set to exactly `{id}`; fails with InvalidLayerError if `id` is
unknown.  This is the observed semantics of the four category buttons
(each shows exactly one layer); the widget implementation is not among
the sources. -/
def LayerVisibilityState.toggleExclusive (s : LayerVisibilityState) (id : String) :
    Except CoreError LayerVisibilityState :=
  if isKnown id then
    .ok { s with visible := [id] }
  else
    .error .invalidLayerError

/-- Modelled from the spec: `reset()` — restores the visible set to
the session's original initial subset.  The widget implementation is
not among the sources. -/
def LayerVisibilityState.reset (s : LayerVisibilityState) : LayerVisibilityState :=
  { s with visible := s.initialSubset }

/-- Modelled from the spec: `initialize(initialVisible)` — fails with
InvalidLayerError if any id is not in the LayerCatalog.  The widget
implementation is not among the sources. -/
def initVisibility (ids : List String) : Except CoreError LayerVisibilityState :=
  if ids.all isKnown then
    .ok { visible := ids, initialSubset := ids }
  else
    .error .invalidLayerError

/-- The visibility state a session starts in: `initialVisibleLayers`
from the `createMap` config, which is also the subset `reset` restores. -/
def initState : LayerVisibilityState :=
  { visible := initialVisibleLayers, initialSubset := initialVisibleLayers }

/-- The four kinds of state-changing layer operations. -/
inductive LayerOp where
  | showOp (id : String)
  | hideOp (id : String)
  | toggleOp (id : String)
  | resetOp
deriving DecidableEq, Repr

/-- Apply one operation to a state; a failing operation (unknown
layer id) leaves the state unchanged (atomicity on failure). -/
def applyOp (s : LayerVisibilityState) : LayerOp → LayerVisibilityState
  | .showOp id =>
    match s.showLayer id with
    | .ok t => t
    | .error _ => s
  | .hideOp id => s.hideLayer id
  | .toggleOp id =>
    match s.toggleExclusive id with
    | .ok t => t
    | .error _ => s
  | .resetOp => s.reset

/-- Apply a sequence of operations in order. -/
def applyOps (s : LayerVisibilityState) (ops : List LayerOp) : LayerVisibilityState :=
  ops.foldl applyOp s

/-- One open farm map session: the resolved farm, the camera
center/zoom, and the owned layer-visibility state. -/
structure FarmMapSession where
  farm : Farm
  center : ℚ × ℚ
  zoom : Nat
  layers : LayerVisibilityState
deriving DecidableEq, Repr

/-- `open(farmId)`: resolves the farm via the repository (propagating
NotFoundError) and constructs the session with the farm's center, the
config's `initialZoom: 12` and `initialVisibleLayers: ['ssurgo']`. -/
def openSession (farmId : String) : Except CoreError FarmMapSession :=
  match FARMS.lookup farmId with
  | none => .error .notFoundError
  | some f =>
    .ok { farm := f, center := f.center, zoom := 12, layers := initState }

/-- Modelled from the spec: `selectLayer(id)` — what the four category
buttons do — delegates to `toggleExclusive`. -/
def FarmMapSession.selectLayer (s : FarmMapSession) (id : String) :
    Except CoreError FarmMapSession :=
  (s.layers.toggleExclusive id).map fun ls => { s with layers := ls }

/-- The `resetView` control exactly as in the source: it calls
`map.flyTo` with the farm's center and zoom 12 and issues no layer
operation, so the layer-visibility state is untouched. -/
def FarmMapSession.resetView (s : FarmMapSession) : FarmMapSession :=
  { s with center := s.farm.center, zoom := 12 }

/-- The run of end-to-end scenario 4: `open("1")`;
`selectLayer("cdl")`; `resetView()`. -/
def runScenario4 : Except CoreError FarmMapSession :=
  (openSession "1").bind fun s =>
    (s.selectLayer "cdl").map FarmMapSession.resetView

/-- Well-formedness of a visibility state: both the visible set and
the initial subset mention only catalog layers. -/
def stateWF (s : LayerVisibilityState) : Prop :=
  (∀ l ∈ s.visible, l ∈ availableLayers) ∧ ∀ l ∈ s.initialSubset, l ∈ availableLayers

theorem stateWF_applyOp {s : LayerVisibilityState} (hs : stateWF s) (op : LayerOp) :
    stateWF (applyOp s op) := by
  obtain ⟨hv, hi⟩ := hs
  cases op with
  | showOp id =>
    by_cases hk : isKnown id
    · simp only [applyOp, LayerVisibilityState.showLayer, hk, if_true]
      refine ⟨?_, hi⟩
      by_cases hm : id ∈ s.visible
      · simpa [hm] using hv
      · simp only [hm, if_false]
        intro l hl
        rcases List.mem_append.mp hl with h1 | h1
        · exact hv l h1
        · rcases List.mem_singleton.mp h1 with rfl
          simpa [isKnown] using hk
    · simp only [applyOp, LayerVisibilityState.showLayer, hk, if_false]
      exact ⟨hv, hi⟩
  | hideOp id =>
    exact ⟨fun l hl => hv l (List.mem_of_mem_erase hl), hi⟩
  | toggleOp id =>
    by_cases hk : isKnown id
    · simp only [applyOp, LayerVisibilityState.toggleExclusive, hk, if_true]
      refine ⟨?_, hi⟩
      intro l hl
      rcases List.mem_singleton.mp hl with rfl
      simpa [isKnown] using hk
    · simp only [applyOp, LayerVisibilityState.toggleExclusive, hk, if_false]
      exact ⟨hv, hi⟩
  | resetOp =>
    exact ⟨fun l hl => hi l hl, hi⟩

theorem stateWF_applyOps {s : LayerVisibilityState} (hs : stateWF s) (ops : List LayerOp) :
    stateWF (applyOps s ops) := by
  induction ops generalizing s with
  | nil => exact hs
  | cons op rest ih => exact ih (stateWF_applyOp hs op)

theorem stateWF_initState : stateWF initState := by
  constructor <;>
    · intro l hl
      simp only [initState, initialVisibleLayers, List.mem_singleton] at hl
      subst hl
      simp [availableLayers]

/-- C1 — counterexample: after `open("1")`; `selectLayer("cdl")`;
`resetView()` the visible set is `["cdl"]`, not `["ssurgo"]`: the
source's `resetView` only calls `map.flyTo` and never restores the
layer set, so the claim as stated fails on the code. -/
theorem C1_counterexample :
    runScenario4.map (fun s => s.layers.currentlyVisible) = Except.ok ["cdl"] ∧
    (["cdl"] : List String) ≠ ["ssurgo"] :=
  ⟨rfl, by decide⟩

/-- C1 (amended): `resetView` restores only the camera — center to
the farm's center and zoom to 12 — and leaves the visible layer set
unchanged; concretely, after `open("1")`; `selectLayer("cdl")`;
`resetView()` the visible set is `{cdl}` (unchanged from the select)
and the center is `[-93.5, 42.0]`. -/
theorem C1_resetView_camera_only :
    (∀ s : FarmMapSession,
      s.resetView.layers = s.layers ∧
      s.resetView.center = s.farm.center ∧
      s.resetView.zoom = 12) ∧
    runScenario4.map (fun s => (s.layers.currentlyVisible, s.center)) =
      Except.ok (["cdl"], ((-93.5 : ℚ), (42.0 : ℚ))) :=
  ⟨fun _ => ⟨rfl, rfl, rfl⟩, rfl⟩

/-- C2: for every visibility state and every valid LayerId `id`,
`toggleExclusive id` (the operation the four category buttons are
bound to, via `selectLayer`) makes the visible set exactly the
singleton `[id]`, for any session. -/
theorem C2_toggleExclusive_singleton (s : LayerVisibilityState)
    (sess : FarmMapSession) (id : String) (h : id ∈ availableLayers) :
    (s.toggleExclusive id).map LayerVisibilityState.currentlyVisible = .ok [id] ∧
    (sess.selectLayer id).map (fun t => t.layers.currentlyVisible) = .ok [id] := by
  have hk : isKnown id = true := by simpa [isKnown] using h
  constructor
  · simp [LayerVisibilityState.toggleExclusive, hk, LayerVisibilityState.currentlyVisible,
      Except.map]
  · simp [FarmMapSession.selectLayer, LayerVisibilityState.toggleExclusive, hk,
      LayerVisibilityState.currentlyVisible, Except.map]

theorem C2_witness :
    "cdl" ∈ availableLayers ∧
    (initState.toggleExclusive "cdl").map LayerVisibilityState.currentlyVisible =
      .ok ["cdl"] := by
  refine ⟨by decide, ?_⟩
  exact (C2_toggleExclusive_singleton initState ⟨farm1, farm1.center, 12, initState⟩
    "cdl" (by decide)).1

/-- C3: for every farm identifier absent from `FARMS`, the repository
lookup fails with NotFoundError and never yields a farm, and the API
route surfaces it as the error object with status 404; in particular
`open("999")` fails with NotFoundError. -/
theorem C3_unknown_farm (farmId : String) (h : FARMS.lookup farmId = none) :
    FarmRepository_get farmId = .error .notFoundError ∧
    api_farm farmId = (.errorObj "Farm not found", 404) ∧
    openSession "999" = .error .notFoundError := by
  refine ⟨?_, ?_, rfl⟩
  · simp [FarmRepository_get, h]
  · simp [api_farm, h]

theorem C3_witness :
    FARMS.lookup "999" = none ∧
    FarmRepository_get "999" = .error .notFoundError :=
  ⟨rfl, (C3_unknown_farm "999" rfl).1⟩

/-- C4: for every farm identifier present in `FARMS`, the lookup
succeeds and the returned farm record's `id` field equals the key it
was looked up by. -/
theorem C4_get_id (farmId : String) (f : Farm) (h : FARMS.lookup farmId = some f) :
    f.id = farmId := by
  simp only [FARMS, List.lookup] at h
  split at h
  next heq =>
    obtain rfl := (Option.some.inj h).symm
    rw [eq_of_beq heq]
    rfl
  next =>
    split at h
    next heq2 =>
      obtain rfl := (Option.some.inj h).symm
      rw [eq_of_beq heq2]
      rfl
    next =>
      simp [List.lookup] at h

theorem C4_witness :
    FARMS.lookup "1" = some farm1 ∧ farm1.id = "1" :=
  ⟨rfl, C4_get_id "1" farm1 rfl⟩

/-- C5: every reachable visibility state — the initial state of a
session and anything obtained from it by a sequence of
show/hide/toggleExclusive/reset operations — only mentions layers of
the catalog `["ssurgo", "cdl", "plss", "clu"]`. -/
theorem C5_reachable_subset (ops : List LayerOp) :
    ∀ l ∈ (applyOps initState ops).visible, l ∈ availableLayers :=
  (stateWF_applyOps stateWF_initState ops).1

theorem C5_witness :
    "cdl" ∈ (applyOps initState [LayerOp.toggleOp "cdl"]).visible ∧
    "cdl" ∈ availableLayers :=
  ⟨by decide, C5_reachable_subset [LayerOp.toggleOp "cdl"] "cdl" (by decide)⟩

/-- C6: every visibility operation given an id outside the catalog —
initialize, show, toggleExclusive — fails with InvalidLayerError, and
the failing step leaves the state unchanged (atomicity on failure). -/
theorem C6_invalid_layer_atomic (s : LayerVisibilityState) (id : String)
    (ids : List String) (h : id ∉ availableLayers) (hmem : id ∈ ids) :
    s.showLayer id = .error .invalidLayerError ∧
    s.toggleExclusive id = .error .invalidLayerError ∧
    initVisibility ids = .error .invalidLayerError ∧
    applyOp s (.showOp id) = s ∧
    applyOp s (.toggleOp id) = s := by
  have hk : isKnown id = false := by simp [isKnown, h]
  refine ⟨?_, ?_, ?_, ?_, ?_⟩
  · simp [LayerVisibilityState.showLayer, hk]
  · simp [LayerVisibilityState.toggleExclusive, hk]
  · have hall : ids.all isKnown = false := by
      rw [Bool.eq_false_iff]
      intro hall
      have := (List.all_eq_true.mp hall) id hmem
      exact h (by simpa [isKnown] using this)
    simp [initVisibility, hall]
  · simp [applyOp, LayerVisibilityState.showLayer, hk]
  · simp [applyOp, LayerVisibilityState.toggleExclusive, hk]

theorem C6_witness :
    "bogus" ∉ availableLayers ∧ "bogus" ∈ ["bogus"] ∧
    initState.showLayer "bogus" = .error .invalidLayerError := by
  refine ⟨by decide, by decide, ?_⟩
  exact (C6_invalid_layer_atomic initState "bogus" ["bogus"] (by decide) (by decide)).1

/-- C7: `open("1")` yields the farm named "Johnson Family Farm" with
exactly 3 fields, center `[-93.5, 42.0]`, and the initial visible
layer set `["ssurgo"]`. -/
theorem C7_open_farm1 :
    (openSession "1").map (fun s =>
      (s.farm.name, s.farm.fields.length, s.center, s.layers.currentlyVisible)) =
    Except.ok ("Johnson Family Farm", 3, ((-93.5 : ℚ), (42.0 : ℚ)), ["ssurgo"]) :=
  rfl

/-- C8: `show` with an already-present id is a no-op, and `hide` with
an absent id is a no-op and raises no error (it is total by type). -/
theorem C8_show_hide_idempotent (s : LayerVisibilityState) (x : String) :
    (x ∈ availableLayers → x ∈ s.visible → s.showLayer x = .ok s) ∧
    (x ∉ s.visible → s.hideLayer x = s) := by
  constructor
  · intro hk hm
    have hk2 : isKnown x = true := by simpa [isKnown] using hk
    simp [LayerVisibilityState.showLayer, hk2, hm]
  · intro hm
    simp [LayerVisibilityState.hideLayer, List.erase_of_not_mem hm]

theorem C8_witness :
    ("ssurgo" ∈ availableLayers ∧ "ssurgo" ∈ initState.visible ∧
      initState.showLayer "ssurgo" = .ok initState) ∧
    ("cdl" ∉ initState.visible ∧ initState.hideLayer "cdl" = initState) := by
  refine ⟨⟨by decide, by decide, ?_⟩, by decide, ?_⟩
  · exact (C8_show_hide_idempotent initState "ssurgo").1 (by decide) (by decide)
  · exact (C8_show_hide_idempotent initState "cdl").2 (by decide)

/-- C9: for every farm in the repository, the acres of its fields sum
to the farm's total acres (400+350+450 = 1200 and 400+400 = 800). -/
theorem C9_acres_sum (f : Farm) (h : f ∈ farmsList) :
    (f.fields.map Field.acres).sum = f.acres := by
  simp only [farmsList, FARMS, List.map_cons, List.map_nil, List.mem_cons,
    List.not_mem_nil, or_false] at h
  rcases h with rfl | rfl
  · rfl
  · rfl

theorem C9_witness :
    farm1 ∈ farmsList ∧ (farm1.fields.map Field.acres).sum = farm1.acres := by
  have hm : farm1 ∈ farmsList := by simp [farmsList, FARMS]
  exact ⟨hm, C9_acres_sum farm1 hm⟩

/-- C10: the HTML detail route and the JSON API route agree on farm
resolution — each returns status 404 exactly when the identifier is
not a key of `FARMS`, both being driven by the same lookup. -/
theorem C10_routes_agree (farmId : String) :
    ((farm_detail farmId).2 = 404 ↔ FARMS.lookup farmId = none) ∧
    ((api_farm farmId).2 = 404 ↔ FARMS.lookup farmId = none) := by
  unfold farm_detail api_farm
  rcases h : FARMS.lookup farmId with _ | f <;> simp [h]

end LandMap
